import Mathlib

/-!
# TF-series LiDAR driver (UART / classic CAN / CAN-FD)

A shallow embedding of `src/tf_uart.c`, `src/tf_can.c`, `src/tf_fdcan.c`,
`src/tf_lidar.c` and the types of `src/tf_config.h`, `src/tf_lidar.h`.

Modelling conventions

* `float` is a type parameter `F` carrying only the two operations the code
  uses on it: the conversion of an integer (`NatCast F`) and the product
  (`Mul F`).  No law of arithmetic is assumed for `F`.
* A pointer is an `Option`: `none` is `NULL`.  Dereferencing `none` is the
  fault `Fault.null_deref`; indexing a local array outside its declared size
  is the fault `Fault.out_of_bounds`.
* The STM32 HAL is not part of the repository.  It is a parameter `Hal σ`:
  one function per HAL entry point the driver calls, acting on an arbitrary
  peripheral state `σ`.  Every HAL call the driver makes is also appended to
  `Machine.calls`, in program order.
* A receive call of the HAL fills the caller's local array; the reply of the
  HAL carries the content of that array after the call.  `HAL_UART_Receive`
  is handed the number of bytes it may store; a request for more bytes than
  the array holds is a store outside the array and is the fault
  `Fault.out_of_bounds`, so the reply is only ever used for a request that
  fits the array.
-/

namespace TFLidar

/-- One `uint8_t`. -/
abbrev Byte := Fin 256

/-- The status a HAL entry point returns (`HAL_StatusTypeDef` of the STM32 HAL
headers, which are included by `tf_config.h` but are not in the repository). -/
inductive HAL_StatusTypeDef
  | HAL_OK
  | HAL_ERROR
  | HAL_BUSY
  | HAL_TIMEOUT
deriving DecidableEq, Repr

/-- The HAL constants named by the driver.  Their numeric values live in the
HAL headers; the driver only passes them on, so they stay symbolic. -/
inductive HalConst
  | UART_WORDLENGTH_8B
  | UART_STOPBITS_1
  | UART_PARITY_NONE
  | UART_MODE_RX
  | ENABLE
  | CAN_FILTER_FIFO0
  | CAN_FILTERMODE_IDMASK
  | CAN_FILTERSCALE_32BIT
  | CAN_RX_FIFO0
  | CAN_IT_RX_FIFO0_MSG_PENDING
  | FDCAN_STANDARD_ID
  | FDCAN_FILTER_MASK
  | FDCAN_FILTER_TO_RXFIFO0
  | FDCAN_RX_FIFO0
  | FDCAN_IT_RX_FIFO0_NEW_MESSAGE
deriving DecidableEq, Repr

/-- The receive timeout in milliseconds, `UART_TIMEOUT_MS 100U` of tf_uart.c. -/
def UART_TIMEOUT_MS : Nat := 100

/-- The struct `tf_lidar_model_t` (tf_config.h).  The integer fields hold values of their
C types (`uint8_t`, `uint32_t`). -/
structure tf_lidar_model_t (F : Type) where
  model_name : String
  uart_baud : Nat
  uart_frame_length : Nat
  can_baud : Nat
  can_id_rx : Nat
  can_id_tx : Nat
  offset_distance : Nat
  offset_signal : Nat
  distance_scale : F
  signal_scale : F

/-- The enumerator `TF_TRANSPORT_UART = 0` (tf_lidar.h). -/
def TF_TRANSPORT_UART : Nat := 0

/-- The enumerator `TF_TRANSPORT_CAN`, second in the enum, hence 1 (tf_lidar.h). -/
def TF_TRANSPORT_CAN : Nat := 1

/-- The enumerator `TF_TRANSPORT_FDCAN`, third in the enum, hence 2 (tf_lidar.h). -/
def TF_TRANSPORT_FDCAN : Nat := 2

/-- A local array `uint8_t a[n]`. -/
structure Buffer (n : Nat) where
  bytes : List Byte
  size_eq : bytes.length = n

/-- The C expression `a[i]` on a local array of `n` bytes: `none` when `i` is
not an index of the array. -/
def Buffer.index {n : Nat} (b : Buffer n) (i : Nat) : Option Byte :=
  b.bytes[i]?

/-- The struct `tf_lidar_t` (tf_lidar.h).  `transport` is the stored value of the enum;
`iface` is the single pointer cell shared by the three members of the union. -/
structure tf_lidar_t (F : Type) where
  model : Option (tf_lidar_model_t F)
  transport : Nat
  iface : Option Nat
  rx_buf : Buffer 64

/-- The fields of `huart->Init` that `tf_lidar_init_uart` writes before it
calls `HAL_UART_Init`. -/
structure UART_InitTypeDef where
  BaudRate : Nat
  WordLength : HalConst
  StopBits : HalConst
  Parity : HalConst
  Mode : HalConst
deriving DecidableEq, Repr

/-- The struct `CAN_FilterTypeDef`, as `tf_lidar_init_can` fills it.  The fields the code
leaves at the `{0}` initialiser are the numbers `0`. -/
structure CAN_FilterTypeDef where
  FilterIdHigh : Nat
  FilterIdLow : Nat
  FilterMaskIdHigh : Nat
  FilterMaskIdLow : Nat
  FilterFIFOAssignment : HalConst
  FilterBank : Nat
  FilterMode : HalConst
  FilterScale : HalConst
  FilterActivation : HalConst
  SlaveStartFilterBank : Nat
deriving DecidableEq, Repr

/-- The struct `FDCAN_FilterTypeDef`, as `tf_lidar_init_fdcan` fills it. -/
structure FDCAN_FilterTypeDef where
  IdType : HalConst
  FilterIndex : Nat
  FilterType : HalConst
  FilterConfig : HalConst
  FilterID1 : Nat
  FilterID2 : Nat
deriving DecidableEq, Repr

/-- The field of `CAN_RxHeaderTypeDef` the driver reads. -/
structure CAN_RxHeaderTypeDef where
  StdId : Nat
deriving DecidableEq, Repr

/-- The identifier field of `FDCAN_RxHeaderTypeDef`; the driver never reads
it. -/
structure FDCAN_RxHeaderTypeDef where
  Identifier : Nat
deriving DecidableEq, Repr

/-- A call of a HAL entry point, with the arguments the driver passes. -/
inductive HalCall
  | HAL_UART_Init (huart : Option Nat) (init : UART_InitTypeDef)
  | HAL_UART_Receive (huart : Option Nat) (size : Nat) (timeout : Nat)
  | HAL_CAN_Init (hcan : Option Nat)
  | HAL_CAN_ConfigFilter (hcan : Option Nat) (filt : CAN_FilterTypeDef)
  | HAL_CAN_Start (hcan : Option Nat)
  | HAL_CAN_ActivateNotification (hcan : Option Nat) (it : HalConst)
  | HAL_CAN_GetRxMessage (hcan : Option Nat) (fifo : HalConst)
  | HAL_FDCAN_Init (hfdcan : Option Nat)
  | HAL_FDCAN_ConfigFilter (hfdcan : Option Nat) (filt : FDCAN_FilterTypeDef)
  | HAL_FDCAN_Start (hfdcan : Option Nat)
  | HAL_FDCAN_ActivateNotification (hfdcan : Option Nat) (it : HalConst) (bufferIndexes : Nat)
  | HAL_FDCAN_GetRxMessage (hfdcan : Option Nat) (fifo : HalConst)
deriving DecidableEq, Repr

/-- The HAL: each entry point maps the peripheral state and its arguments to a
status, the data it hands back, and the next peripheral state.  The array in
the reply of a receive entry point is the content of the caller's local array
after the call; `HAL_UART_Receive` takes the number of bytes to store as its
third argument and is called only with a number the array of 32 bytes holds
(see `tf_uart_read_frame`). -/
structure Hal (σ : Type) where
  HAL_UART_Init : σ → Option Nat → UART_InitTypeDef → HAL_StatusTypeDef × σ
  HAL_UART_Receive : σ → Option Nat → Nat → Nat → HAL_StatusTypeDef × Buffer 32 × σ
  HAL_CAN_Init : σ → Option Nat → HAL_StatusTypeDef × σ
  HAL_CAN_ConfigFilter : σ → Option Nat → CAN_FilterTypeDef → HAL_StatusTypeDef × σ
  HAL_CAN_Start : σ → Option Nat → HAL_StatusTypeDef × σ
  HAL_CAN_ActivateNotification : σ → Option Nat → HalConst → HAL_StatusTypeDef × σ
  HAL_CAN_GetRxMessage :
    σ → Option Nat → HalConst → HAL_StatusTypeDef × CAN_RxHeaderTypeDef × Buffer 8 × σ
  HAL_FDCAN_Init : σ → Option Nat → HAL_StatusTypeDef × σ
  HAL_FDCAN_ConfigFilter : σ → Option Nat → FDCAN_FilterTypeDef → HAL_StatusTypeDef × σ
  HAL_FDCAN_Start : σ → Option Nat → HAL_StatusTypeDef × σ
  HAL_FDCAN_ActivateNotification : σ → Option Nat → HalConst → Nat → HAL_StatusTypeDef × σ
  HAL_FDCAN_GetRxMessage :
    σ → Option Nat → HalConst → HAL_StatusTypeDef × FDCAN_RxHeaderTypeDef × Buffer 64 × σ

/-- What stops a run of the driver short of a return: the dereference of a null
pointer, or an access outside a local array (an index that is not an index of
the array, or a receive call allowed to store more bytes than the array
holds). -/
inductive Fault
  | null_deref
  | out_of_bounds
deriving DecidableEq, Repr

/-- The program state a call acts on: the handle, the two cells the output
parameters `distance_m` and `signal` point to, the peripheral state, and the
HAL calls made so far. -/
structure Machine (σ F : Type) where
  lidar : tf_lidar_t F
  distance_m : F
  signal : F
  hw : σ
  calls : List HalCall

/-- Record a HAL call and the peripheral state it leaves. -/
def Machine.log {σ F : Type} (s : Machine σ F) (c : HalCall) (w : σ) : Machine σ F :=
  { s with hw := w, calls := s.calls ++ [c] }

/-- The expression `((uint16_t)a[off] << 8) | a[off + 1]` stored in a
`uint16_t`.  `off + 1` is computed in `int`, so it does not wrap. -/
def load_u16 {n : Nat} (a : Buffer n) (off : Nat) : Except Fault Nat :=
  match a.index off, a.index (off + 1) with
  | some hi, some lo => .ok (((hi.val <<< 8) ||| lo.val) % 65536)
  | _, _ => .error .out_of_bounds

/-! ## tf_uart.c -/

/-- Function `tf_uart_read_frame` (tf_uart.c, lines 13 to 19): one blocking
`HAL_UART_Receive` of `uart_frame_length` bytes into `frame`, the array of 32
bytes of the only caller, `tf_lidar_read_uart`.  The length is a `uint8_t` and
is compared with nothing: asking for more than 32 bytes lets the HAL store
past the end of `frame`. -/
def tf_uart_read_frame {σ F : Type} (hal : Hal σ) (s : Machine σ F) :
    Except Fault (Bool × Buffer 32 × Machine σ F) :=
  match s.lidar.model with
  | none => .error .null_deref
  | some m =>
    if 32 < m.uart_frame_length then .error .out_of_bounds
    else
      let r := hal.HAL_UART_Receive s.hw s.lidar.iface m.uart_frame_length UART_TIMEOUT_MS
      .ok (decide (r.1 = .HAL_OK), r.2.1,
           s.log (.HAL_UART_Receive s.lidar.iface m.uart_frame_length UART_TIMEOUT_MS) r.2.2)

/-- Function `tf_lidar_init_uart` (tf_uart.c, lines 25 to 39): the handle is
written first, then `huart->Init` is filled from the model, which dereferences
both pointers, then `HAL_UART_Init` is called and its status compared with
`HAL_OK`. -/
def tf_lidar_init_uart {σ F : Type} (hal : Hal σ) (s : Machine σ F)
    (model : Option (tf_lidar_model_t F)) (huart : Option Nat) :
    Except Fault (Bool × Machine σ F) :=
  let s1 : Machine σ F :=
    { s with lidar := { s.lidar with model := model, transport := TF_TRANSPORT_UART,
                                     iface := huart } }
  match huart, model with
  | some _, some m =>
    let init : UART_InitTypeDef :=
      { BaudRate := m.uart_baud, WordLength := .UART_WORDLENGTH_8B,
        StopBits := .UART_STOPBITS_1, Parity := .UART_PARITY_NONE, Mode := .UART_MODE_RX }
    let r := hal.HAL_UART_Init s1.hw huart init
    .ok (decide (r.1 = .HAL_OK), s1.log (.HAL_UART_Init huart init) r.2)
  | _, _ => .error .null_deref

/-- Function `tf_lidar_read_uart` (tf_uart.c, lines 45 to 59): `frame` is the
local array of 32 bytes. -/
def tf_lidar_read_uart {σ F : Type} [NatCast F] [Mul F] (hal : Hal σ) (s : Machine σ F) :
    Except Fault (Bool × Machine σ F) :=
  match tf_uart_read_frame hal s with
  | .error e => .error e
  | .ok (received, frame, s1) =>
    if !received then .ok (false, s1)
    else
      match s1.lidar.model with
      | none => .error .null_deref
      | some m =>
        match load_u16 frame m.offset_distance with
        | .error e => .error e
        | .ok raw_d =>
          match load_u16 frame m.offset_signal with
          | .error e => .error e
          | .ok raw_s =>
            .ok (true, { s1 with distance_m := (raw_d : F) * m.distance_scale,
                                 signal := (raw_s : F) * m.signal_scale })

/-! ## tf_can.c -/

/-- The filter `tf_lidar_init_can` builds: `filt = {0}` followed by the seven
assignments.  `can_id_tx << 5` is a shift of a `uint32_t`. -/
def tf_lidar_init_can_filt {F : Type} (m : tf_lidar_model_t F) : CAN_FilterTypeDef :=
  { FilterIdHigh := ((m.can_id_tx <<< 5) % 2 ^ 32) &&& 0xFFFF
    FilterIdLow := 0
    FilterMaskIdHigh := 0xFFE0
    FilterMaskIdLow := 0
    FilterFIFOAssignment := .CAN_FILTER_FIFO0
    FilterBank := 0
    FilterMode := .CAN_FILTERMODE_IDMASK
    FilterScale := .CAN_FILTERSCALE_32BIT
    FilterActivation := .ENABLE
    SlaveStartFilterBank := 0 }

/-- Function `tf_lidar_init_can` (tf_can.c, lines 8 to 36).  The model is
dereferenced only after `HAL_CAN_Init` succeeded.  The results of `HAL_CAN_Start` and
`HAL_CAN_ActivateNotification` are discarded, as in the source. -/
def tf_lidar_init_can {σ F : Type} (hal : Hal σ) (s : Machine σ F)
    (model : Option (tf_lidar_model_t F)) (hcan : Option Nat) :
    Except Fault (Bool × Machine σ F) :=
  let s1 : Machine σ F :=
    { s with lidar := { s.lidar with model := model, transport := TF_TRANSPORT_CAN,
                                     iface := hcan } }
  let r1 := hal.HAL_CAN_Init s1.hw hcan
  let s2 := s1.log (.HAL_CAN_Init hcan) r1.2
  if r1.1 ≠ .HAL_OK then .ok (false, s2)
  else
    match model with
    | none => .error .null_deref
    | some m =>
      let filt := tf_lidar_init_can_filt m
      let r2 := hal.HAL_CAN_ConfigFilter s2.hw hcan filt
      let s3 := s2.log (.HAL_CAN_ConfigFilter hcan filt) r2.2
      if r2.1 ≠ .HAL_OK then .ok (false, s3)
      else
        let r3 := hal.HAL_CAN_Start s3.hw hcan
        let s4 := s3.log (.HAL_CAN_Start hcan) r3.2
        let r4 := hal.HAL_CAN_ActivateNotification s4.hw hcan .CAN_IT_RX_FIFO0_MSG_PENDING
        let s5 := s4.log (.HAL_CAN_ActivateNotification hcan .CAN_IT_RX_FIFO0_MSG_PENDING) r4.2
        .ok (true, s5)

/-- Function `tf_lidar_read_can` (tf_can.c, lines 42 to 61): `data` is the
local array of 8 bytes; the model is first dereferenced in the identifier
check, after the receive call succeeded. -/
def tf_lidar_read_can {σ F : Type} [NatCast F] [Mul F] (hal : Hal σ) (s : Machine σ F) :
    Except Fault (Bool × Machine σ F) :=
  let r := hal.HAL_CAN_GetRxMessage s.hw s.lidar.iface .CAN_RX_FIFO0
  let hdr := r.2.1
  let data := r.2.2.1
  let s1 := s.log (.HAL_CAN_GetRxMessage s.lidar.iface .CAN_RX_FIFO0) r.2.2.2
  if r.1 ≠ .HAL_OK then .ok (false, s1)
  else
    match s1.lidar.model with
    | none => .error .null_deref
    | some m =>
      if hdr.StdId ≠ m.can_id_rx then .ok (false, s1)
      else
        match load_u16 data m.offset_distance with
        | .error e => .error e
        | .ok raw_d =>
          match load_u16 data m.offset_signal with
          | .error e => .error e
          | .ok raw_s =>
            .ok (true, { s1 with distance_m := (raw_d : F) * m.distance_scale,
                                 signal := (raw_s : F) * m.signal_scale })

/-! ## tf_fdcan.c -/

/-- The filter `tf_lidar_init_fdcan` builds: `filter = {0}` followed by the six
assignments. -/
def tf_lidar_init_fdcan_filter {F : Type} (m : tf_lidar_model_t F) : FDCAN_FilterTypeDef :=
  { IdType := .FDCAN_STANDARD_ID
    FilterIndex := 0
    FilterType := .FDCAN_FILTER_MASK
    FilterConfig := .FDCAN_FILTER_TO_RXFIFO0
    FilterID1 := m.can_id_tx
    FilterID2 := 0x7FF }

/-- Function `tf_lidar_init_fdcan` (tf_fdcan.c, lines 9 to 36).  The model is
dereferenced only after `HAL_FDCAN_Init` succeeded.  The results of `HAL_FDCAN_Start` and
`HAL_FDCAN_ActivateNotification` are discarded, as in the source. -/
def tf_lidar_init_fdcan {σ F : Type} (hal : Hal σ) (s : Machine σ F)
    (model : Option (tf_lidar_model_t F)) (hfdcan : Option Nat) :
    Except Fault (Bool × Machine σ F) :=
  let s1 : Machine σ F :=
    { s with lidar := { s.lidar with model := model, transport := TF_TRANSPORT_FDCAN,
                                     iface := hfdcan } }
  let r1 := hal.HAL_FDCAN_Init s1.hw hfdcan
  let s2 := s1.log (.HAL_FDCAN_Init hfdcan) r1.2
  if r1.1 ≠ .HAL_OK then .ok (false, s2)
  else
    match model with
    | none => .error .null_deref
    | some m =>
      let filter := tf_lidar_init_fdcan_filter m
      let r2 := hal.HAL_FDCAN_ConfigFilter s2.hw hfdcan filter
      let s3 := s2.log (.HAL_FDCAN_ConfigFilter hfdcan filter) r2.2
      if r2.1 ≠ .HAL_OK then .ok (false, s3)
      else
        let r3 := hal.HAL_FDCAN_Start s3.hw hfdcan
        let s4 := s3.log (.HAL_FDCAN_Start hfdcan) r3.2
        let r4 := hal.HAL_FDCAN_ActivateNotification s4.hw hfdcan
          .FDCAN_IT_RX_FIFO0_NEW_MESSAGE 0
        let s5 := s4.log
          (.HAL_FDCAN_ActivateNotification hfdcan .FDCAN_IT_RX_FIFO0_NEW_MESSAGE 0) r4.2
        .ok (true, s5)

/-- Function `tf_lidar_read_fdcan` (tf_fdcan.c, lines 42 to 60): `data` is the
local array of 64 bytes.  The header is received and not looked at. -/
def tf_lidar_read_fdcan {σ F : Type} [NatCast F] [Mul F] (hal : Hal σ) (s : Machine σ F) :
    Except Fault (Bool × Machine σ F) :=
  let r := hal.HAL_FDCAN_GetRxMessage s.hw s.lidar.iface .FDCAN_RX_FIFO0
  let data := r.2.2.1
  let s1 := s.log (.HAL_FDCAN_GetRxMessage s.lidar.iface .FDCAN_RX_FIFO0) r.2.2.2
  if r.1 ≠ .HAL_OK then .ok (false, s1)
  else
    match s1.lidar.model with
    | none => .error .null_deref
    | some m =>
      match load_u16 data m.offset_distance with
      | .error e => .error e
      | .ok raw_d =>
        match load_u16 data m.offset_signal with
        | .error e => .error e
        | .ok raw_s =>
          .ok (true, { s1 with distance_m := (raw_d : F) * m.distance_scale,
                               signal := (raw_s : F) * m.signal_scale })

/-! ## tf_lidar.c -/

/-- Function `tf_lidar_read` (tf_lidar.c, lines 8 to 20): the `switch` on
`lidar->transport`, with `default: return false`. -/
def tf_lidar_read {σ F : Type} [NatCast F] [Mul F] (hal : Hal σ) (s : Machine σ F) :
    Except Fault (Bool × Machine σ F) :=
  if s.lidar.transport = TF_TRANSPORT_UART then tf_lidar_read_uart hal s
  else if s.lidar.transport = TF_TRANSPORT_CAN then tf_lidar_read_can hal s
  else if s.lidar.transport = TF_TRANSPORT_FDCAN then tf_lidar_read_fdcan hal s
  else .ok (false, s)

/-- Function `tf_lidar_switch_to_uart` (tf_lidar.c, lines 26 to 29). -/
def tf_lidar_switch_to_uart {σ F : Type} (hal : Hal σ) (s : Machine σ F)
    (huart : Option Nat) : Except Fault (Bool × Machine σ F) :=
  tf_lidar_init_uart hal s s.lidar.model huart

/-- Function `tf_lidar_switch_to_can` (tf_lidar.c, lines 35 to 38). -/
def tf_lidar_switch_to_can {σ F : Type} (hal : Hal σ) (s : Machine σ F)
    (hcan : Option Nat) : Except Fault (Bool × Machine σ F) :=
  tf_lidar_init_can hal s s.lidar.model hcan

/-- Function `tf_lidar_switch_to_fdcan` (tf_lidar.c, lines 44 to 47). -/
def tf_lidar_switch_to_fdcan {σ F : Type} (hal : Hal σ) (s : Machine σ F)
    (hfdcan : Option Nat) : Except Fault (Bool × Machine σ F) :=
  tf_lidar_init_fdcan hal s s.lidar.model hfdcan

/-! ## Vocabulary for the statements -/

/-- The handle before any `init_*` or `switch_to_*` call: every byte zero. -/
def tf_lidar_zero (F : Type) : tf_lidar_t F :=
  { model := none, transport := 0, iface := none,
    rx_buf := ⟨List.replicate 64 0, List.length_replicate 64 0⟩ }

/-- The three transports, to quantify over them. -/
inductive Transport
  | uart
  | can
  | fdcan
deriving DecidableEq, Repr

/-- The enumerator of a transport. -/
def Transport.tag : Transport → Nat
  | .uart => TF_TRANSPORT_UART
  | .can => TF_TRANSPORT_CAN
  | .fdcan => TF_TRANSPORT_FDCAN

/-- The `init` function of a transport. -/
def Transport.init {σ F : Type} (t : Transport) (hal : Hal σ) (s : Machine σ F)
    (model : Option (tf_lidar_model_t F)) (conn : Option Nat) :
    Except Fault (Bool × Machine σ F) :=
  match t with
  | .uart => tf_lidar_init_uart hal s model conn
  | .can => tf_lidar_init_can hal s model conn
  | .fdcan => tf_lidar_init_fdcan hal s model conn

/-- The `switch_to` function of a transport. -/
def Transport.switch_to {σ F : Type} (t : Transport) (hal : Hal σ) (s : Machine σ F)
    (conn : Option Nat) : Except Fault (Bool × Machine σ F) :=
  match t with
  | .uart => tf_lidar_switch_to_uart hal s conn
  | .can => tf_lidar_switch_to_can hal s conn
  | .fdcan => tf_lidar_switch_to_fdcan hal s conn

/-- The codec (read function) of a transport. -/
def Transport.codec {σ F : Type} [NatCast F] [Mul F] (t : Transport) (hal : Hal σ)
    (s : Machine σ F) : Except Fault (Bool × Machine σ F) :=
  match t with
  | .uart => tf_lidar_read_uart hal s
  | .can => tf_lidar_read_can hal s
  | .fdcan => tf_lidar_read_fdcan hal s

/-- The transport whose peripheral a HAL call addresses. -/
def HalCall.owner : HalCall → Transport
  | .HAL_UART_Init _ _ => .uart
  | .HAL_UART_Receive _ _ _ => .uart
  | .HAL_CAN_Init _ => .can
  | .HAL_CAN_ConfigFilter _ _ => .can
  | .HAL_CAN_Start _ => .can
  | .HAL_CAN_ActivateNotification _ _ => .can
  | .HAL_CAN_GetRxMessage _ _ => .can
  | .HAL_FDCAN_Init _ => .fdcan
  | .HAL_FDCAN_ConfigFilter _ _ => .fdcan
  | .HAL_FDCAN_Start _ => .fdcan
  | .HAL_FDCAN_ActivateNotification _ _ _ => .fdcan
  | .HAL_FDCAN_GetRxMessage _ _ => .fdcan

/-- The connection a HAL call is made on. -/
def HalCall.conn : HalCall → Option Nat
  | .HAL_UART_Init h _ => h
  | .HAL_UART_Receive h _ _ => h
  | .HAL_CAN_Init h => h
  | .HAL_CAN_ConfigFilter h _ => h
  | .HAL_CAN_Start h => h
  | .HAL_CAN_ActivateNotification h _ => h
  | .HAL_CAN_GetRxMessage h _ => h
  | .HAL_FDCAN_Init h => h
  | .HAL_FDCAN_ConfigFilter h _ => h
  | .HAL_FDCAN_Start h => h
  | .HAL_FDCAN_ActivateNotification h _ _ => h
  | .HAL_FDCAN_GetRxMessage h _ => h

/-- Modelled from the spec: the acceptance rule of the classic CAN filter bank in
identifier-mask mode, on the upper half-word that holds the standard
identifier at bits 5 to 15: a frame with standard identifier `sid` passes when
`(sid << 5) & mask = id & mask`.  The filter hardware is not in the
repository. -/
def can_filter_accepts (filt : CAN_FilterTypeDef) (sid : Nat) : Bool :=
  decide (((sid <<< 5) &&& filt.FilterMaskIdHigh) = (filt.FilterIdHigh &&& filt.FilterMaskIdHigh))

/-- Modelled from the spec: the acceptance rule of a CAN-FD classic
(identifier and mask) filter element: a frame with standard identifier `sid`
passes when `sid & ID2 = ID1 & ID2`.  The filter hardware is not in the
repository. -/
def fdcan_filter_accepts (filter : FDCAN_FilterTypeDef) (sid : Nat) : Bool :=
  decide ((sid &&& filter.FilterID2) = (filter.FilterID1 &&& filter.FilterID2))

/-- Both two-byte fields of the model lie inside an array of `n` bytes. -/
def offsets_within {F : Type} (m : tf_lidar_model_t F) (n : Nat) : Prop :=
  m.offset_distance + 1 < n ∧ m.offset_signal + 1 < n

instance {F : Type} (m : tf_lidar_model_t F) (n : Nat) : Decidable (offsets_within m n) :=
  inferInstanceAs (Decidable (_ ∧ _))

/-! ## Concrete inputs -/

/-- An array of `n` bytes that starts with `l` and is zero after it. -/
def Buffer.fill (n : Nat) (l : List Byte) : Buffer n :=
  ⟨(l ++ List.replicate n 0).take n, by simp⟩

/-- Canned replies of a HAL without state: a status for every call, and the
frame each receive entry point hands back. -/
structure Canned where
  status : HalCall → HAL_StatusTypeDef
  frame : Buffer 32
  can_hdr : CAN_RxHeaderTypeDef
  can_data : Buffer 8
  fdcan_hdr : FDCAN_RxHeaderTypeDef
  fdcan_data : Buffer 64

/-- The HAL that answers from canned replies. -/
def cannedHal (c : Canned) : Hal Unit :=
  { HAL_UART_Init := fun w h i => (c.status (.HAL_UART_Init h i), w)
    HAL_UART_Receive := fun w h n t => (c.status (.HAL_UART_Receive h n t), c.frame, w)
    HAL_CAN_Init := fun w h => (c.status (.HAL_CAN_Init h), w)
    HAL_CAN_ConfigFilter := fun w h f => (c.status (.HAL_CAN_ConfigFilter h f), w)
    HAL_CAN_Start := fun w h => (c.status (.HAL_CAN_Start h), w)
    HAL_CAN_ActivateNotification := fun w h i =>
      (c.status (.HAL_CAN_ActivateNotification h i), w)
    HAL_CAN_GetRxMessage := fun w h q =>
      (c.status (.HAL_CAN_GetRxMessage h q), c.can_hdr, c.can_data, w)
    HAL_FDCAN_Init := fun w h => (c.status (.HAL_FDCAN_Init h), w)
    HAL_FDCAN_ConfigFilter := fun w h f => (c.status (.HAL_FDCAN_ConfigFilter h f), w)
    HAL_FDCAN_Start := fun w h => (c.status (.HAL_FDCAN_Start h), w)
    HAL_FDCAN_ActivateNotification := fun w h i b =>
      (c.status (.HAL_FDCAN_ActivateNotification h i b), w)
    HAL_FDCAN_GetRxMessage := fun w h q =>
      (c.status (.HAL_FDCAN_GetRxMessage h q), c.fdcan_hdr, c.fdcan_data, w) }

/-- The model of the example scenario: frame length 9, distance at offset 2,
signal at offset 4, scales 0.01 and 1.0, over the rationals. -/
def exModel : tf_lidar_model_t ℚ :=
  { model_name := "TF", uart_baud := 115200, uart_frame_length := 9, can_baud := 1000000,
    can_id_rx := 3, can_id_tx := 3, offset_distance := 2, offset_signal := 4,
    distance_scale := 1 / 100, signal_scale := 1 }

/-- The payload of the example scenario: `0x03 0xE8` at offsets 2 and 3,
`0x00 0x64` at offsets 4 and 5. -/
def exPayload : List Byte := [0x59, 0x59, 0x03, 0xE8, 0x00, 0x64, 0x00, 0x00]

/-- Canned replies where every call succeeds and every receive entry point
hands back the example payload, the classic CAN frame under identifier `sid`. -/
def exCanned (sid : Nat) : Canned :=
  { status := fun _ => .HAL_OK
    frame := Buffer.fill 32 exPayload
    can_hdr := ⟨sid⟩
    can_data := Buffer.fill 8 exPayload
    fdcan_hdr := ⟨sid⟩
    fdcan_data := Buffer.fill 64 exPayload }

/-- A machine whose handle is bound to `exModel` on connection 1 with the given
tag, and whose output cells hold 7 and 8. -/
def exMachine (tag : Nat) : Machine Unit ℚ :=
  { lidar := { model := some exModel, transport := tag, iface := some 1,
               rx_buf := (tf_lidar_zero ℚ).rx_buf },
    distance_m := 7, signal := 8, hw := (), calls := [] }

/-- Canned replies where every call fails. -/
def exCannedFail : Canned :=
  { exCanned 3 with status := fun _ => .HAL_ERROR }

/-- Canned replies where configuring the peripheral and installing the filter
succeed, and starting it and enabling the notification fail. -/
def exCannedStartFail : Canned :=
  { exCanned 3 with
    status := fun c =>
      match c with
      | .HAL_CAN_Start _ => .HAL_ERROR
      | .HAL_CAN_ActivateNotification _ _ => .HAL_ERROR
      | .HAL_FDCAN_Start _ => .HAL_ERROR
      | .HAL_FDCAN_ActivateNotification _ _ _ => .HAL_ERROR
      | _ => .HAL_OK }

/-- The example model with the signal field moved to offset 7: its second byte
is at index 8, past the 8 bytes of a classic CAN payload. -/
def exModelWide : tf_lidar_model_t ℚ :=
  { exModel with offset_signal := 7 }

/-- A machine whose handle is bound to `exModelWide` on connection 1. -/
def exMachineWide : Machine Unit ℚ :=
  { lidar := { model := some exModelWide, transport := TF_TRANSPORT_CAN, iface := some 1,
               rx_buf := (tf_lidar_zero ℚ).rx_buf },
    distance_m := 7, signal := 8, hw := (), calls := [] }

/-- The example model with a UART frame of 40 bytes, more than the 32 bytes of
the array `frame`; the offsets stay 2 and 4. -/
def exModelLong : tf_lidar_model_t ℚ :=
  { exModel with uart_frame_length := 40 }

/-- A machine whose handle is bound to `exModelLong` on connection 1. -/
def exMachineLong : Machine Unit ℚ :=
  { lidar := { model := some exModelLong, transport := TF_TRANSPORT_UART, iface := some 1,
               rx_buf := (tf_lidar_zero ℚ).rx_buf },
    distance_m := 7, signal := 8, hw := (), calls := [] }

/-- A machine whose handle is in the zero state. -/
def zeroMachine : Machine Unit ℚ :=
  { lidar := tf_lidar_zero ℚ, distance_m := 7, signal := 8, hw := (), calls := [] }

/-! ## Basic facts on array reads -/

theorem or_shift_eq (hi lo : Byte) : ((hi.val <<< 8) ||| lo.val) % 65536 = 256 * hi.val + lo.val := by
  have h1 : lo.val < 2 ^ 8 := lo.isLt
  have h2 : hi.val < 256 := hi.isLt
  rw [Nat.shiftLeft_eq, Nat.mul_comm, ← Nat.mul_add_lt_is_or h1]
  omega

theorem index_isSome_iff {n : Nat} (a : Buffer n) (i : Nat) : (a.index i).isSome ↔ i < n := by
  have hn : a.bytes.length = n := a.size_eq
  unfold Buffer.index
  cases h : a.bytes[i]? with
  | none =>
    have := List.getElem?_eq_none_iff.mp h
    simp
    omega
  | some b =>
    obtain ⟨hlt, _⟩ := List.getElem?_eq_some_iff.mp h
    simp
    omega

theorem load_u16_of_index {n : Nat} (a : Buffer n) (off : Nat) (hi lo : Byte)
    (h1 : a.index off = some hi) (h2 : a.index (off + 1) = some lo) :
    load_u16 a off = .ok (256 * hi.val + lo.val) := by
  simp [load_u16, h1, h2, or_shift_eq]

theorem load_u16_of_lt {n : Nat} (a : Buffer n) (off : Nat) (h : off + 1 < n) :
    ∃ hi lo : Byte, a.index off = some hi ∧ a.index (off + 1) = some lo ∧
      load_u16 a off = .ok (256 * hi.val + lo.val) := by
  have h1 : (a.index off).isSome := (index_isSome_iff a off).mpr (by omega)
  have h2 : (a.index (off + 1)).isSome := (index_isSome_iff a (off + 1)).mpr h
  obtain ⟨hi, hhi⟩ := Option.isSome_iff_exists.mp h1
  obtain ⟨lo, hlo⟩ := Option.isSome_iff_exists.mp h2
  exact ⟨hi, lo, hhi, hlo, load_u16_of_index a off hi lo hhi hlo⟩

theorem load_u16_of_ge {n : Nat} (a : Buffer n) (off : Nat) (h : n ≤ off + 1) :
    load_u16 a off = .error .out_of_bounds := by
  have h2 : a.index (off + 1) = none := by
    have := (index_isSome_iff a (off + 1)).not.mpr (by omega)
    simpa using this
  unfold load_u16
  rw [h2]
  cases a.index off <;> rfl

/-! ## The codecs on a bound handle -/

theorem read_uart_of_ok {σ F : Type} [NatCast F] [Mul F] (hal : Hal σ) (s : Machine σ F)
    (m : tf_lidar_model_t F) (frame : Buffer 32) (w : σ) (rd rs : Nat)
    (hm : s.lidar.model = some m) (hlen : m.uart_frame_length ≤ 32)
    (hrx : hal.HAL_UART_Receive s.hw s.lidar.iface m.uart_frame_length UART_TIMEOUT_MS
      = (.HAL_OK, frame, w))
    (hd : load_u16 frame m.offset_distance = .ok rd)
    (hs : load_u16 frame m.offset_signal = .ok rs) :
    tf_lidar_read_uart hal s = .ok (true,
      { s with distance_m := (rd : F) * m.distance_scale
               signal := (rs : F) * m.signal_scale
               hw := w
               calls := s.calls ++
                 [.HAL_UART_Receive s.lidar.iface m.uart_frame_length UART_TIMEOUT_MS] }) := by
  have hlen2 : ¬ 32 < m.uart_frame_length := by omega
  simp [tf_lidar_read_uart, tf_uart_read_frame, hm, hlen2, hrx, Machine.log, hd, hs]

theorem read_uart_of_long {σ F : Type} [NatCast F] [Mul F] (hal : Hal σ) (s : Machine σ F)
    (m : tf_lidar_model_t F) (hm : s.lidar.model = some m) (hlen : 32 < m.uart_frame_length) :
    tf_lidar_read_uart hal s = .error .out_of_bounds := by
  simp [tf_lidar_read_uart, tf_uart_read_frame, hm, hlen]

/-- C1, as written for every model, fails: with a UART frame length of 40, the
offsets 2 and 4 inside the frame and a receive that succeeds,
`tf_lidar_read_uart` does not return true: the receive is allowed to store 40
bytes in the array of 32 and the run stops on that access outside the
array. -/
theorem C1_frame_length_counterexample :
    exModelLong.uart_frame_length = 40 ∧
    exModelLong.offset_distance + 1 < 32 ∧ exModelLong.offset_signal + 1 < 32 ∧
    ((cannedHal (exCanned 3)).HAL_UART_Receive exMachineLong.hw exMachineLong.lidar.iface
      exModelLong.uart_frame_length UART_TIMEOUT_MS).1 = .HAL_OK ∧
    tf_lidar_read_uart (cannedHal (exCanned 3)) exMachineLong = .error .out_of_bounds ∧
    ¬ ∃ st, tf_lidar_read_uart (cannedHal (exCanned 3)) exMachineLong = .ok (true, st) := by
  refine ⟨rfl, by decide, by decide, rfl, rfl, ?_⟩
  rintro ⟨st, h⟩
  have h2 : tf_lidar_read_uart (cannedHal (exCanned 3)) exMachineLong
      = .error .out_of_bounds := rfl
  rw [h2] at h
  cases h

/-- C1, amended: for a model whose `uart_frame_length` is at most 32, the size
of the frame array: when the blocking receive succeeds and the four bytes at
`offset_distance`, `offset_distance + 1`, `offset_signal`, `offset_signal + 1`
are inside the frame array, `tf_lidar_read_uart` returns true, stores the
product of `256 * frame[offset_distance] + frame[offset_distance + 1]` and
`distance_scale` in `*distance_m`, the product of
`256 * frame[offset_signal] + frame[offset_signal + 1]` and `signal_scale` in
`*signal`, and both raw values are at most 65535. -/
theorem C1_read_uart_decodes {σ F : Type} [NatCast F] [Mul F] (hal : Hal σ)
    (s : Machine σ F) (m : tf_lidar_model_t F) (frame : Buffer 32) (w : σ)
    (d_hi d_lo s_hi s_lo : Byte)
    (hm : s.lidar.model = some m) (hlen : m.uart_frame_length ≤ 32)
    (hrx : hal.HAL_UART_Receive s.hw s.lidar.iface m.uart_frame_length UART_TIMEOUT_MS
      = (.HAL_OK, frame, w))
    (h1 : frame.index m.offset_distance = some d_hi)
    (h2 : frame.index (m.offset_distance + 1) = some d_lo)
    (h3 : frame.index m.offset_signal = some s_hi)
    (h4 : frame.index (m.offset_signal + 1) = some s_lo) :
    256 * d_hi.val + d_lo.val ≤ 65535 ∧ 256 * s_hi.val + s_lo.val ≤ 65535 ∧
    tf_lidar_read_uart hal s = .ok (true,
      { s with distance_m := ((256 * d_hi.val + d_lo.val : Nat) : F) * m.distance_scale
               signal := ((256 * s_hi.val + s_lo.val : Nat) : F) * m.signal_scale
               hw := w
               calls := s.calls ++
                 [.HAL_UART_Receive s.lidar.iface m.uart_frame_length UART_TIMEOUT_MS] }) := by
  have b1 := d_hi.isLt
  have b2 := d_lo.isLt
  have b3 := s_hi.isLt
  have b4 := s_lo.isLt
  refine ⟨by omega, by omega, ?_⟩
  exact read_uart_of_ok hal s m frame w _ _ hm hlen hrx
    (load_u16_of_index frame _ d_hi d_lo h1 h2) (load_u16_of_index frame _ s_hi s_lo h3 h4)

/-- The example scenario of C1: frame length 9, offsets 2 and 4, bytes
`0x03 0xE8` and `0x00 0x64`, scales 0.01 and 1.0: the raw values are 1000 and
100, the distance is 10 and the signal 100. -/
theorem C1_read_uart_decodes_witness :
    (256 * 0x03 + 0xE8 = 1000 ∧ 256 * 0x00 + 0x64 = 100) ∧
    ∃ st, tf_lidar_read_uart (cannedHal (exCanned 3)) (exMachine TF_TRANSPORT_UART)
        = .ok (true, st) ∧ st.distance_m = 10 ∧ st.signal = 100 := by
  refine ⟨by decide, ?_⟩
  have h := C1_read_uart_decodes (cannedHal (exCanned 3)) (exMachine TF_TRANSPORT_UART)
    exModel (Buffer.fill 32 exPayload) () 0x03 0xE8 0x00 0x64 rfl (by decide)
    rfl rfl rfl rfl rfl
  refine ⟨_, h.2.2, ?_, ?_⟩
  · show ((256 * 3 + 232 : ℕ) : ℚ) * (1 / 100) = 10
    norm_num
  · show ((256 * 0 + 100 : ℕ) : ℚ) * 1 = 100
    norm_num

theorem read_can_of_mismatch {σ F : Type} [NatCast F] [Mul F] (hal : Hal σ) (s : Machine σ F)
    (m : tf_lidar_model_t F) (hdr : CAN_RxHeaderTypeDef) (data : Buffer 8) (w : σ)
    (hm : s.lidar.model = some m)
    (hrx : hal.HAL_CAN_GetRxMessage s.hw s.lidar.iface .CAN_RX_FIFO0 = (.HAL_OK, hdr, data, w))
    (hid : hdr.StdId ≠ m.can_id_rx) :
    tf_lidar_read_can hal s = .ok (false,
      { s with hw := w
               calls := s.calls ++ [.HAL_CAN_GetRxMessage s.lidar.iface .CAN_RX_FIFO0] }) := by
  simp [tf_lidar_read_can, hm, hrx, Machine.log, hid]

theorem read_of_tag_can {σ F : Type} [NatCast F] [Mul F] (hal : Hal σ) (s : Machine σ F)
    (h : s.lidar.transport = TF_TRANSPORT_CAN) : tf_lidar_read hal s = tf_lidar_read_can hal s := by
  simp [tf_lidar_read, h, TF_TRANSPORT_CAN, TF_TRANSPORT_UART]

theorem read_of_tag_uart {σ F : Type} [NatCast F] [Mul F] (hal : Hal σ) (s : Machine σ F)
    (h : s.lidar.transport = TF_TRANSPORT_UART) :
    tf_lidar_read hal s = tf_lidar_read_uart hal s := by
  simp [tf_lidar_read, h]

theorem read_of_tag_fdcan {σ F : Type} [NatCast F] [Mul F] (hal : Hal σ) (s : Machine σ F)
    (h : s.lidar.transport = TF_TRANSPORT_FDCAN) :
    tf_lidar_read hal s = tf_lidar_read_fdcan hal s := by
  simp [tf_lidar_read, h, TF_TRANSPORT_CAN, TF_TRANSPORT_UART, TF_TRANSPORT_FDCAN]

theorem read_of_tag_other {σ F : Type} [NatCast F] [Mul F] (hal : Hal σ) (s : Machine σ F)
    (h0 : s.lidar.transport ≠ TF_TRANSPORT_UART) (h1 : s.lidar.transport ≠ TF_TRANSPORT_CAN)
    (h2 : s.lidar.transport ≠ TF_TRANSPORT_FDCAN) : tf_lidar_read hal s = .ok (false, s) := by
  simp [tf_lidar_read, h0, h1, h2]

/-- C2: when the frame taken from the receive queue carries a standard
identifier different from `model.can_id_rx`, `tf_lidar_read_can` returns false
and the cells behind `distance_m` and `signal` keep their values; so does
`tf_lidar_read` when the tag of the handle is `TF_TRANSPORT_CAN`. -/
theorem C2_read_can_id_mismatch {σ F : Type} [NatCast F] [Mul F] (hal : Hal σ)
    (s : Machine σ F) (m : tf_lidar_model_t F) (hdr : CAN_RxHeaderTypeDef) (data : Buffer 8)
    (w : σ)
    (hm : s.lidar.model = some m)
    (hrx : hal.HAL_CAN_GetRxMessage s.hw s.lidar.iface .CAN_RX_FIFO0 = (.HAL_OK, hdr, data, w))
    (hid : hdr.StdId ≠ m.can_id_rx) :
    ∃ st, tf_lidar_read_can hal s = .ok (false, st) ∧
      st.distance_m = s.distance_m ∧ st.signal = s.signal ∧
      (s.lidar.transport = TF_TRANSPORT_CAN → tf_lidar_read hal s = .ok (false, st)) := by
  refine ⟨_, read_can_of_mismatch hal s m hdr data w hm hrx hid, rfl, rfl, ?_⟩
  intro ht
  rw [read_of_tag_can hal s ht]
  exact read_can_of_mismatch hal s m hdr data w hm hrx hid

/-- The second example scenario: the payload arrives under identifier 5 while
`can_id_rx` is 3; the read fails and the output cells still hold 7 and 8. -/
theorem C2_read_can_id_mismatch_witness :
    ∃ st, tf_lidar_read_can (cannedHal (exCanned 5)) (exMachine TF_TRANSPORT_CAN)
        = .ok (false, st) ∧ st.distance_m = 7 ∧ st.signal = 8 ∧
      tf_lidar_read (cannedHal (exCanned 5)) (exMachine TF_TRANSPORT_CAN) = .ok (false, st) := by
  obtain ⟨st, h1, h2, h3, h4⟩ := C2_read_can_id_mismatch (cannedHal (exCanned 5))
    (exMachine TF_TRANSPORT_CAN) exModel ⟨5⟩ (Buffer.fill 8 exPayload) () rfl rfl (by decide)
  exact ⟨st, h1, h2, h3, h4 rfl⟩

/-- C3, as written, fails: on the zero-state handle `tf_lidar_read` runs the
UART codec and faults on the null model reference; it does not return
false. -/
theorem C3_zero_handle_counterexample :
    tf_lidar_read (cannedHal (exCanned 3)) zeroMachine
        = tf_lidar_read_uart (cannedHal (exCanned 3)) zeroMachine ∧
      tf_lidar_read (cannedHal (exCanned 3)) zeroMachine = .error .null_deref ∧
      ¬ ∃ st, tf_lidar_read (cannedHal (exCanned 3)) zeroMachine = .ok (false, st) := by
  refine ⟨rfl, rfl, ?_⟩
  rintro ⟨st, h⟩
  have h2 : tf_lidar_read (cannedHal (exCanned 3)) zeroMachine = .error .null_deref := rfl
  rw [h2] at h
  cases h

/-- C3, amended: on a handle in the zero state (null model, tag 0, null
connection) `tf_lidar_read` is the UART codec, because tag 0 is
`TF_TRANSPORT_UART`, and that codec, in its receive helper
`tf_uart_read_frame`, dereferences the null model reference: the call stops
on that fault and does not return false.  With the same null model and
connection and a tag that is none of the three enumerators, `tf_lidar_read`
returns false and leaves the whole state, the list of HAL calls included, as
it was. -/
theorem C3_zero_handle_amended {σ F : Type} [NatCast F] [Mul F] (hal : Hal σ)
    (d sg : F) (w : σ) (cs : List HalCall) (k : Nat) :
    tf_lidar_read hal ⟨tf_lidar_zero F, d, sg, w, cs⟩
        = tf_lidar_read_uart hal ⟨tf_lidar_zero F, d, sg, w, cs⟩ ∧
      tf_uart_read_frame hal ⟨tf_lidar_zero F, d, sg, w, cs⟩ = .error .null_deref ∧
      tf_lidar_read hal ⟨tf_lidar_zero F, d, sg, w, cs⟩ = .error .null_deref ∧
      tf_lidar_read hal ⟨{ tf_lidar_zero F with transport := k + 3 }, d, sg, w, cs⟩
        = .ok (false, ⟨{ tf_lidar_zero F with transport := k + 3 }, d, sg, w, cs⟩) := by
  refine ⟨rfl, rfl, rfl, ?_⟩
  apply read_of_tag_other <;> simp [TF_TRANSPORT_UART, TF_TRANSPORT_CAN, TF_TRANSPORT_FDCAN]

/-- C5: `tf_lidar_read` is the UART codec under tag `TF_TRANSPORT_UART`, the
classic CAN codec under `TF_TRANSPORT_CAN`, the CAN-FD codec under
`TF_TRANSPORT_FDCAN`; under every other tag it returns false and the state
after the call is the state before it: no HAL call, output cells untouched. -/
theorem C5_read_dispatch {σ F : Type} [NatCast F] [Mul F] (hal : Hal σ) (s : Machine σ F) :
    (s.lidar.transport = TF_TRANSPORT_UART → tf_lidar_read hal s = tf_lidar_read_uart hal s) ∧
    (s.lidar.transport = TF_TRANSPORT_CAN → tf_lidar_read hal s = tf_lidar_read_can hal s) ∧
    (s.lidar.transport = TF_TRANSPORT_FDCAN →
      tf_lidar_read hal s = tf_lidar_read_fdcan hal s) ∧
    (s.lidar.transport ≠ TF_TRANSPORT_UART → s.lidar.transport ≠ TF_TRANSPORT_CAN →
      s.lidar.transport ≠ TF_TRANSPORT_FDCAN → tf_lidar_read hal s = .ok (false, s)) :=
  ⟨read_of_tag_uart hal s, read_of_tag_can hal s, read_of_tag_fdcan hal s,
   read_of_tag_other hal s⟩

/-- C5 on concrete handles: tag 1 reads through the classic CAN codec and
decodes the example payload; tag 3 returns false with the state unchanged. -/
theorem C5_read_dispatch_witness :
    tf_lidar_read (cannedHal (exCanned 3)) (exMachine 1)
        = tf_lidar_read_can (cannedHal (exCanned 3)) (exMachine 1) ∧
      tf_lidar_read (cannedHal (exCanned 3)) (exMachine 3) = .ok (false, exMachine 3) :=
  ⟨(C5_read_dispatch (cannedHal (exCanned 3)) (exMachine 1)).2.1 rfl,
   (C5_read_dispatch (cannedHal (exCanned 3)) (exMachine 3)).2.2.2
     (by decide) (by decide) (by decide)⟩

/-! ## The init functions -/

theorem init_uart_eq {σ F : Type} (hal : Hal σ) (s : Machine σ F) (m : tf_lidar_model_t F)
    (c : Nat) :
    tf_lidar_init_uart hal s (some m) (some c) = .ok
      (decide ((hal.HAL_UART_Init s.hw (some c)
          ⟨m.uart_baud, .UART_WORDLENGTH_8B, .UART_STOPBITS_1, .UART_PARITY_NONE,
           .UART_MODE_RX⟩).1 = .HAL_OK),
       { s with
         lidar := { s.lidar with model := some m, transport := TF_TRANSPORT_UART,
                                 iface := some c }
         hw := (hal.HAL_UART_Init s.hw (some c)
          ⟨m.uart_baud, .UART_WORDLENGTH_8B, .UART_STOPBITS_1, .UART_PARITY_NONE,
           .UART_MODE_RX⟩).2
         calls := s.calls ++ [.HAL_UART_Init (some c)
          ⟨m.uart_baud, .UART_WORDLENGTH_8B, .UART_STOPBITS_1, .UART_PARITY_NONE,
           .UART_MODE_RX⟩] }) := rfl

theorem init_can_spec {σ F : Type} (hal : Hal σ) (s : Machine σ F) (m : tf_lidar_model_t F)
    (c : Option Nat) :
    ∃ r st, tf_lidar_init_can hal s (some m) c = .ok (r, st) ∧
      st.lidar = { s.lidar with model := some m, transport := TF_TRANSPORT_CAN, iface := c } ∧
      (r = true ↔ (hal.HAL_CAN_Init s.hw c).1 = .HAL_OK ∧
        (hal.HAL_CAN_ConfigFilter (hal.HAL_CAN_Init s.hw c).2 c
          (tf_lidar_init_can_filt m)).1 = .HAL_OK) := by
  by_cases h1 : (hal.HAL_CAN_Init s.hw c).1 = .HAL_OK
  · by_cases h2 : (hal.HAL_CAN_ConfigFilter (hal.HAL_CAN_Init s.hw c).2 c
        (tf_lidar_init_can_filt m)).1 = .HAL_OK
    · exact ⟨true, _, by simp [tf_lidar_init_can, Machine.log, h1, h2]; rfl, rfl,
        by simp [h1, h2]⟩
    · exact ⟨false, _, by simp [tf_lidar_init_can, Machine.log, h1, h2]; rfl, rfl,
        by simp [h1, h2]⟩
  · exact ⟨false, _, by simp [tf_lidar_init_can, Machine.log, h1]; rfl, rfl, by simp [h1]⟩

theorem init_fdcan_spec {σ F : Type} (hal : Hal σ) (s : Machine σ F)
    (m : tf_lidar_model_t F) (c : Option Nat) :
    ∃ r st, tf_lidar_init_fdcan hal s (some m) c = .ok (r, st) ∧
      st.lidar = { s.lidar with model := some m, transport := TF_TRANSPORT_FDCAN,
                                iface := c } ∧
      (r = true ↔ (hal.HAL_FDCAN_Init s.hw c).1 = .HAL_OK ∧
        (hal.HAL_FDCAN_ConfigFilter (hal.HAL_FDCAN_Init s.hw c).2 c
          (tf_lidar_init_fdcan_filter m)).1 = .HAL_OK) := by
  by_cases h1 : (hal.HAL_FDCAN_Init s.hw c).1 = .HAL_OK
  · by_cases h2 : (hal.HAL_FDCAN_ConfigFilter (hal.HAL_FDCAN_Init s.hw c).2 c
        (tf_lidar_init_fdcan_filter m)).1 = .HAL_OK
    · exact ⟨true, _, by simp [tf_lidar_init_fdcan, Machine.log, h1, h2]; rfl, rfl,
        by simp [h1, h2]⟩
    · exact ⟨false, _, by simp [tf_lidar_init_fdcan, Machine.log, h1, h2]; rfl, rfl,
        by simp [h1, h2]⟩
  · exact ⟨false, _, by simp [tf_lidar_init_fdcan, Machine.log, h1]; rfl, rfl, by simp [h1]⟩

theorem init_bound {σ F : Type} (t : Transport) (hal : Hal σ) (s : Machine σ F)
    (m : tf_lidar_model_t F) (c : Nat) :
    ∃ r st, t.init hal s (some m) (some c) = .ok (r, st) ∧
      st.lidar = { s.lidar with model := some m, transport := t.tag, iface := some c } := by
  cases t with
  | uart => exact ⟨_, _, init_uart_eq hal s m c, rfl⟩
  | can =>
    obtain ⟨r, st, h, hl, _⟩ := init_can_spec hal s m (some c)
    exact ⟨r, st, h, hl⟩
  | fdcan =>
    obtain ⟨r, st, h, hl, _⟩ := init_fdcan_spec hal s m (some c)
    exact ⟨r, st, h, hl⟩

theorem switch_to_eq_init {σ F : Type} (t : Transport) (hal : Hal σ) (s : Machine σ F)
    (c : Option Nat) : t.switch_to hal s c = t.init hal s s.lidar.model c := by
  cases t <;> rfl

theorem read_eq_codec {σ F : Type} [NatCast F] [Mul F] (t : Transport) (hal : Hal σ)
    (s : Machine σ F) (h : s.lidar.transport = t.tag) : tf_lidar_read hal s = t.codec hal s := by
  cases t with
  | uart => exact read_of_tag_uart hal s h
  | can => exact read_of_tag_can hal s h
  | fdcan => exact read_of_tag_fdcan hal s h

theorem load_u16_fault {n : Nat} (a : Buffer n) (off : Nat) (e : Fault)
    (h : load_u16 a off = .error e) : e = .out_of_bounds := by
  unfold load_u16 at h
  split at h
  · cases h
  · cases h
    rfl

theorem read_uart_step {σ F : Type} [NatCast F] [Mul F] (hal : Hal σ) (s : Machine σ F)
    (m : tf_lidar_model_t F) (hm : s.lidar.model = some m) :
    tf_lidar_read_uart hal s = .error .out_of_bounds ∨
    ∃ r st, tf_lidar_read_uart hal s = .ok (r, st) ∧ st.lidar = s.lidar ∧
      st.calls = s.calls ++
        [.HAL_UART_Receive s.lidar.iface m.uart_frame_length UART_TIMEOUT_MS] := by
  by_cases hlong : 32 < m.uart_frame_length
  · exact Or.inl (read_uart_of_long hal s m hm hlong)
  have hlen : m.uart_frame_length ≤ 32 := by omega
  by_cases hok : (hal.HAL_UART_Receive s.hw s.lidar.iface m.uart_frame_length
      UART_TIMEOUT_MS).1 = .HAL_OK
  · cases hd : load_u16 (hal.HAL_UART_Receive s.hw s.lidar.iface m.uart_frame_length
        UART_TIMEOUT_MS).2.1 m.offset_distance with
    | error e =>
      have he := load_u16_fault _ _ e hd
      subst he
      left
      simp [tf_lidar_read_uart, tf_uart_read_frame, hm, hlong, hok, Machine.log, hd]
    | ok rd =>
      cases hs : load_u16 (hal.HAL_UART_Receive s.hw s.lidar.iface m.uart_frame_length
          UART_TIMEOUT_MS).2.1 m.offset_signal with
      | error e =>
        have he := load_u16_fault _ _ e hs
        subst he
        left
        simp [tf_lidar_read_uart, tf_uart_read_frame, hm, hlong, hok, Machine.log, hd, hs]
      | ok rs =>
        right
        exact ⟨true, _, read_uart_of_ok hal s m _ _ rd rs hm hlen (Prod.ext hok rfl) hd hs,
          rfl, rfl⟩
  · right
    have h : tf_lidar_read_uart hal s = .ok (false,
        s.log (.HAL_UART_Receive s.lidar.iface m.uart_frame_length UART_TIMEOUT_MS)
          (hal.HAL_UART_Receive s.hw s.lidar.iface m.uart_frame_length
            UART_TIMEOUT_MS).2.2) := by
      simp [tf_lidar_read_uart, tf_uart_read_frame, hm, hlong, hok]
    exact ⟨false, _, h, rfl, rfl⟩

theorem read_can_step {σ F : Type} [NatCast F] [Mul F] (hal : Hal σ) (s : Machine σ F)
    (m : tf_lidar_model_t F) (hm : s.lidar.model = some m) :
    tf_lidar_read_can hal s = .error .out_of_bounds ∨
    ∃ r st, tf_lidar_read_can hal s = .ok (r, st) ∧ st.lidar = s.lidar ∧
      st.calls = s.calls ++ [.HAL_CAN_GetRxMessage s.lidar.iface .CAN_RX_FIFO0] := by
  by_cases hok : (hal.HAL_CAN_GetRxMessage s.hw s.lidar.iface .CAN_RX_FIFO0).1 = .HAL_OK
  · by_cases hid : (hal.HAL_CAN_GetRxMessage s.hw s.lidar.iface .CAN_RX_FIFO0).2.1.StdId
        = m.can_id_rx
    · cases hd : load_u16 (hal.HAL_CAN_GetRxMessage s.hw s.lidar.iface .CAN_RX_FIFO0).2.2.1
          m.offset_distance with
      | error e =>
        have he := load_u16_fault _ _ e hd
        subst he
        left
        simp [tf_lidar_read_can, hm, hok, hid, Machine.log, hd]
      | ok rd =>
        cases hs : load_u16 (hal.HAL_CAN_GetRxMessage s.hw s.lidar.iface .CAN_RX_FIFO0).2.2.1
            m.offset_signal with
        | error e =>
          have he := load_u16_fault _ _ e hs
          subst he
          left
          simp [tf_lidar_read_can, hm, hok, hid, Machine.log, hd, hs]
        | ok rs =>
          right
          have h : tf_lidar_read_can hal s = .ok (true,
              { s.log (.HAL_CAN_GetRxMessage s.lidar.iface .CAN_RX_FIFO0)
                  (hal.HAL_CAN_GetRxMessage s.hw s.lidar.iface .CAN_RX_FIFO0).2.2.2 with
                distance_m := (rd : F) * m.distance_scale
                signal := (rs : F) * m.signal_scale }) := by
            simp [tf_lidar_read_can, hm, hok, hid, Machine.log, hd, hs]
          exact ⟨true, _, h, rfl, rfl⟩
    · right
      have h : tf_lidar_read_can hal s = .ok (false,
          s.log (.HAL_CAN_GetRxMessage s.lidar.iface .CAN_RX_FIFO0)
            (hal.HAL_CAN_GetRxMessage s.hw s.lidar.iface .CAN_RX_FIFO0).2.2.2) := by
        simp [tf_lidar_read_can, hm, hok, hid, Machine.log]
      exact ⟨false, _, h, rfl, rfl⟩
  · right
    have h : tf_lidar_read_can hal s = .ok (false,
        s.log (.HAL_CAN_GetRxMessage s.lidar.iface .CAN_RX_FIFO0)
          (hal.HAL_CAN_GetRxMessage s.hw s.lidar.iface .CAN_RX_FIFO0).2.2.2) := by
      simp [tf_lidar_read_can, hok]
    exact ⟨false, _, h, rfl, rfl⟩

theorem read_fdcan_step {σ F : Type} [NatCast F] [Mul F] (hal : Hal σ) (s : Machine σ F)
    (m : tf_lidar_model_t F) (hm : s.lidar.model = some m) :
    tf_lidar_read_fdcan hal s = .error .out_of_bounds ∨
    ∃ r st, tf_lidar_read_fdcan hal s = .ok (r, st) ∧ st.lidar = s.lidar ∧
      st.calls = s.calls ++ [.HAL_FDCAN_GetRxMessage s.lidar.iface .FDCAN_RX_FIFO0] := by
  by_cases hok : (hal.HAL_FDCAN_GetRxMessage s.hw s.lidar.iface .FDCAN_RX_FIFO0).1 = .HAL_OK
  · cases hd : load_u16 (hal.HAL_FDCAN_GetRxMessage s.hw s.lidar.iface .FDCAN_RX_FIFO0).2.2.1
        m.offset_distance with
    | error e =>
      have he := load_u16_fault _ _ e hd
      subst he
      left
      simp [tf_lidar_read_fdcan, hm, hok, Machine.log, hd]
    | ok rd =>
      cases hs : load_u16
          (hal.HAL_FDCAN_GetRxMessage s.hw s.lidar.iface .FDCAN_RX_FIFO0).2.2.1
          m.offset_signal with
      | error e =>
        have he := load_u16_fault _ _ e hs
        subst he
        left
        simp [tf_lidar_read_fdcan, hm, hok, Machine.log, hd, hs]
      | ok rs =>
        right
        have h : tf_lidar_read_fdcan hal s = .ok (true,
            { s.log (.HAL_FDCAN_GetRxMessage s.lidar.iface .FDCAN_RX_FIFO0)
                (hal.HAL_FDCAN_GetRxMessage s.hw s.lidar.iface .FDCAN_RX_FIFO0).2.2.2 with
              distance_m := (rd : F) * m.distance_scale
              signal := (rs : F) * m.signal_scale }) := by
          simp [tf_lidar_read_fdcan, hm, hok, Machine.log, hd, hs]
        exact ⟨true, _, h, rfl, rfl⟩
  · right
    have h : tf_lidar_read_fdcan hal s = .ok (false,
        s.log (.HAL_FDCAN_GetRxMessage s.lidar.iface .FDCAN_RX_FIFO0)
          (hal.HAL_FDCAN_GetRxMessage s.hw s.lidar.iface .FDCAN_RX_FIFO0).2.2.2) := by
      simp [tf_lidar_read_fdcan, hok]
    exact ⟨false, _, h, rfl, rfl⟩

theorem codec_step {σ F : Type} [NatCast F] [Mul F] (t : Transport) (hal : Hal σ)
    (s : Machine σ F) (m : tf_lidar_model_t F) (hm : s.lidar.model = some m) :
    t.codec hal s = .error .out_of_bounds ∨
    ∃ r st c, t.codec hal s = .ok (r, st) ∧ st.lidar = s.lidar ∧
      st.calls = s.calls ++ [c] ∧ c.owner = t ∧ c.conn = s.lidar.iface := by
  cases t with
  | uart =>
    rcases read_uart_step hal s m hm with h | ⟨r, st, h, hl, hc⟩
    · exact Or.inl h
    · exact Or.inr ⟨r, st, _, h, hl, hc, rfl, rfl⟩
  | can =>
    rcases read_can_step hal s m hm with h | ⟨r, st, h, hl, hc⟩
    · exact Or.inl h
    · exact Or.inr ⟨r, st, _, h, hl, hc, rfl, rfl⟩
  | fdcan =>
    rcases read_fdcan_step hal s m hm with h | ⟨r, st, h, hl, hc⟩
    · exact Or.inl h
    · exact Or.inr ⟨r, st, _, h, hl, hc, rfl, rfl⟩

/-- C4: for every pair of transports `A`, `B`, every model and connections `a`,
`b`: `init_A(handle, model, a)` and then `switch_to_B(handle, b)` both return
(with whatever result), and afterwards the tag of the handle is `B`, its
connection is `b` and its model is the one given to `init_A`.  From then on,
whatever the output cells, the peripheral state and the calls made so far,
`tf_lidar_read` is the codec of `B`: it either stops on an out-of-bounds array
read, or returns with the handle unchanged after exactly one HAL call, which
addresses the peripheral of `B` on connection `b`. -/
theorem C4_switch_replaces_dispatch {σ F : Type} [NatCast F] [Mul F] (A B : Transport)
    (hal : Hal σ) (s : Machine σ F) (m : tf_lidar_model_t F) (a b : Nat) :
    ∃ r1 s1 r2 s2, A.init hal s (some m) (some a) = .ok (r1, s1) ∧
      B.switch_to hal s1 (some b) = .ok (r2, s2) ∧
      s2.lidar.transport = B.tag ∧ s2.lidar.iface = some b ∧ s2.lidar.model = some m ∧
      ∀ (d sg : F) (w : σ) (cs : List HalCall),
        tf_lidar_read hal ⟨s2.lidar, d, sg, w, cs⟩ = B.codec hal ⟨s2.lidar, d, sg, w, cs⟩ ∧
        (tf_lidar_read hal ⟨s2.lidar, d, sg, w, cs⟩ = .error .out_of_bounds ∨
         ∃ r st c, tf_lidar_read hal ⟨s2.lidar, d, sg, w, cs⟩ = .ok (r, st) ∧
           st.lidar = s2.lidar ∧ st.calls = cs ++ [c] ∧ c.owner = B ∧ c.conn = some b) := by
  obtain ⟨r1, s1, h1, hl1⟩ := init_bound A hal s m a
  have hm1 : s1.lidar.model = some m := by rw [hl1]
  obtain ⟨r2, s2, h2, hl2⟩ := init_bound B hal s1 m b
  have hsw : B.switch_to hal s1 (some b) = .ok (r2, s2) := by
    rw [switch_to_eq_init, hm1]
    exact h2
  have ht : s2.lidar.transport = B.tag := by rw [hl2]
  have hi : s2.lidar.iface = some b := by rw [hl2]
  have hm2 : s2.lidar.model = some m := by rw [hl2]
  refine ⟨r1, s1, r2, s2, h1, hsw, ht, hi, hm2, ?_⟩
  intro d sg w cs
  have hrd : tf_lidar_read hal ⟨s2.lidar, d, sg, w, cs⟩ = B.codec hal ⟨s2.lidar, d, sg, w, cs⟩ :=
    read_eq_codec B hal ⟨s2.lidar, d, sg, w, cs⟩ ht
  refine ⟨hrd, ?_⟩
  rw [hrd]
  rcases codec_step B hal ⟨s2.lidar, d, sg, w, cs⟩ m hm2 with h | ⟨r, st, c, h, hl, hc, ho, hcn⟩
  · exact Or.inl h
  · exact Or.inr ⟨r, st, c, h, hl, hc, ho, by rw [hcn]; exact hi⟩

/-- C6: each of the three init functions, called on any machine with a model
and a connection, returns, and the handle then holds that model, the tag of
that transport and that connection, whatever the HAL answered.
`tf_lidar_init_uart` returns true exactly when `HAL_UART_Init` answers
`HAL_OK`; the two CAN init functions return false when configuring the
peripheral fails, with the handle bound all the same. -/
theorem C6_init_binds {σ F : Type} (hal : Hal σ) (s : Machine σ F) (m : tf_lidar_model_t F)
    (c : Nat) :
    (∃ r st, tf_lidar_init_uart hal s (some m) (some c) = .ok (r, st) ∧
      st.lidar.model = some m ∧ st.lidar.transport = TF_TRANSPORT_UART ∧
      st.lidar.iface = some c ∧
      (r = true ↔ (hal.HAL_UART_Init s.hw (some c)
        ⟨m.uart_baud, .UART_WORDLENGTH_8B, .UART_STOPBITS_1, .UART_PARITY_NONE,
         .UART_MODE_RX⟩).1 = .HAL_OK)) ∧
    (∃ r st, tf_lidar_init_can hal s (some m) (some c) = .ok (r, st) ∧
      st.lidar.model = some m ∧ st.lidar.transport = TF_TRANSPORT_CAN ∧
      st.lidar.iface = some c ∧
      ((hal.HAL_CAN_Init s.hw (some c)).1 ≠ .HAL_OK → r = false)) ∧
    (∃ r st, tf_lidar_init_fdcan hal s (some m) (some c) = .ok (r, st) ∧
      st.lidar.model = some m ∧ st.lidar.transport = TF_TRANSPORT_FDCAN ∧
      st.lidar.iface = some c ∧
      ((hal.HAL_FDCAN_Init s.hw (some c)).1 ≠ .HAL_OK → r = false)) := by
  refine ⟨⟨_, _, init_uart_eq hal s m c, rfl, rfl, rfl, by simp⟩, ?_, ?_⟩
  · obtain ⟨r, st, h, hl, hr⟩ := init_can_spec hal s m (some c)
    refine ⟨r, st, h, by rw [hl], by rw [hl], by rw [hl], ?_⟩
    intro hf
    cases r with
    | false => rfl
    | true => exact absurd (hr.mp rfl).1 hf
  · obtain ⟨r, st, h, hl, hr⟩ := init_fdcan_spec hal s m (some c)
    refine ⟨r, st, h, by rw [hl], by rw [hl], by rw [hl], ?_⟩
    intro hf
    cases r with
    | false => rfl
    | true => exact absurd (hr.mp rfl).1 hf

/-- C6 on a HAL where every call fails, starting from a handle bound to UART on
connection 1: `tf_lidar_init_can` with connection 9 returns false and the
handle is bound to classic CAN on connection 9. -/
theorem C6_init_binds_witness :
    ∃ st, tf_lidar_init_can (cannedHal exCannedFail) (exMachine TF_TRANSPORT_UART)
        (some exModel) (some 9) = .ok (false, st) ∧
      st.lidar.transport = TF_TRANSPORT_CAN ∧ st.lidar.iface = some 9 := by
  obtain ⟨r, st, h, _, ht, hi, hr⟩ :=
    (C6_init_binds (cannedHal exCannedFail) (exMachine TF_TRANSPORT_UART) exModel 9).2.1
  have hf : r = false := hr (by decide)
  subst hf
  exact ⟨st, h, ht, hi⟩

/-- C7 evaluated where it fails: `HAL_CAN_Start`, `HAL_CAN_ActivateNotification`,
`HAL_FDCAN_Start` and `HAL_FDCAN_ActivateNotification` report `HAL_ERROR`, and
`tf_lidar_init_can` and `tf_lidar_init_fdcan` return true. -/
theorem C7_init_ignores_start_failure :
    (cannedHal exCannedStartFail).HAL_CAN_Start () (some 1) = (.HAL_ERROR, ()) ∧
    (cannedHal exCannedStartFail).HAL_CAN_ActivateNotification () (some 1)
      .CAN_IT_RX_FIFO0_MSG_PENDING = (.HAL_ERROR, ()) ∧
    (cannedHal exCannedStartFail).HAL_FDCAN_Start () (some 1) = (.HAL_ERROR, ()) ∧
    (cannedHal exCannedStartFail).HAL_FDCAN_ActivateNotification () (some 1)
      .FDCAN_IT_RX_FIFO0_NEW_MESSAGE 0 = (.HAL_ERROR, ()) ∧
    (∃ st, tf_lidar_init_can (cannedHal exCannedStartFail) zeroMachine (some exModel) (some 1)
      = .ok (true, st)) ∧
    (∃ st, tf_lidar_init_fdcan (cannedHal exCannedStartFail) zeroMachine (some exModel) (some 1)
      = .ok (true, st)) :=
  ⟨rfl, rfl, rfl, rfl, ⟨_, rfl⟩, ⟨_, rfl⟩⟩

/-! ## Decoding on the three arrays -/

theorem read_can_of_ok {σ F : Type} [NatCast F] [Mul F] (hal : Hal σ) (s : Machine σ F)
    (m : tf_lidar_model_t F) (hdr : CAN_RxHeaderTypeDef) (data : Buffer 8) (w : σ)
    (rd rs : Nat)
    (hm : s.lidar.model = some m)
    (hrx : hal.HAL_CAN_GetRxMessage s.hw s.lidar.iface .CAN_RX_FIFO0 = (.HAL_OK, hdr, data, w))
    (hid : hdr.StdId = m.can_id_rx)
    (hd : load_u16 data m.offset_distance = .ok rd)
    (hs : load_u16 data m.offset_signal = .ok rs) :
    tf_lidar_read_can hal s = .ok (true,
      { s with distance_m := (rd : F) * m.distance_scale
               signal := (rs : F) * m.signal_scale
               hw := w
               calls := s.calls ++ [.HAL_CAN_GetRxMessage s.lidar.iface .CAN_RX_FIFO0] }) := by
  simp [tf_lidar_read_can, hm, hrx, Machine.log, hid, hd, hs]

theorem read_fdcan_of_ok {σ F : Type} [NatCast F] [Mul F] (hal : Hal σ) (s : Machine σ F)
    (m : tf_lidar_model_t F) (hdr : FDCAN_RxHeaderTypeDef) (data : Buffer 64) (w : σ)
    (rd rs : Nat)
    (hm : s.lidar.model = some m)
    (hrx : hal.HAL_FDCAN_GetRxMessage s.hw s.lidar.iface .FDCAN_RX_FIFO0
      = (.HAL_OK, hdr, data, w))
    (hd : load_u16 data m.offset_distance = .ok rd)
    (hs : load_u16 data m.offset_signal = .ok rs) :
    tf_lidar_read_fdcan hal s = .ok (true,
      { s with distance_m := (rd : F) * m.distance_scale
               signal := (rs : F) * m.signal_scale
               hw := w
               calls := s.calls ++ [.HAL_FDCAN_GetRxMessage s.lidar.iface .FDCAN_RX_FIFO0] }) := by
  simp [tf_lidar_read_fdcan, hm, hrx, Machine.log, hd, hs]

/-- C8: for one model and the same four payload bytes at `offset_distance`,
`offset_distance + 1`, `offset_signal`, `offset_signal + 1` of the UART frame,
of the classic CAN payload and of the CAN-FD payload, with every receive call
answering `HAL_OK`, the classic CAN frame carrying `can_id_rx` and the CAN-FD
frame carrying any identifier: the classic CAN codec and the CAN-FD codec
return true and store the products of `256 * b0 + b1` with `distance_scale`
and of `256 * b2 + b3` with `signal_scale`; whenever the UART codec returns on
that frame it returns true and has stored exactly that distance and that
signal; and it does return when `uart_frame_length` is at most 32, the size of
its frame array. -/
theorem C8_codecs_agree {σ F : Type} [NatCast F] [Mul F] (hal : Hal σ) (s : Machine σ F)
    (m : tf_lidar_model_t F) (frame : Buffer 32) (data : Buffer 8) (fddata : Buffer 64)
    (hdr : CAN_RxHeaderTypeDef) (fdhdr : FDCAN_RxHeaderTypeDef) (wu wc wf : σ)
    (b0 b1 b2 b3 : Byte)
    (hm : s.lidar.model = some m)
    (hu : hal.HAL_UART_Receive s.hw s.lidar.iface m.uart_frame_length UART_TIMEOUT_MS
      = (.HAL_OK, frame, wu))
    (hc : hal.HAL_CAN_GetRxMessage s.hw s.lidar.iface .CAN_RX_FIFO0 = (.HAL_OK, hdr, data, wc))
    (hid : hdr.StdId = m.can_id_rx)
    (hf : hal.HAL_FDCAN_GetRxMessage s.hw s.lidar.iface .FDCAN_RX_FIFO0
      = (.HAL_OK, fdhdr, fddata, wf))
    (u0 : frame.index m.offset_distance = some b0)
    (u1 : frame.index (m.offset_distance + 1) = some b1)
    (u2 : frame.index m.offset_signal = some b2)
    (u3 : frame.index (m.offset_signal + 1) = some b3)
    (c0 : data.index m.offset_distance = some b0)
    (c1 : data.index (m.offset_distance + 1) = some b1)
    (c2 : data.index m.offset_signal = some b2)
    (c3 : data.index (m.offset_signal + 1) = some b3)
    (f0 : fddata.index m.offset_distance = some b0)
    (f1 : fddata.index (m.offset_distance + 1) = some b1)
    (f2 : fddata.index m.offset_signal = some b2)
    (f3 : fddata.index (m.offset_signal + 1) = some b3) :
    ∃ sc sf, tf_lidar_read_can hal s = .ok (true, sc) ∧
      tf_lidar_read_fdcan hal s = .ok (true, sf) ∧
      sc.distance_m = ((256 * b0.val + b1.val : Nat) : F) * m.distance_scale ∧
      sc.signal = ((256 * b2.val + b3.val : Nat) : F) * m.signal_scale ∧
      sf.distance_m = sc.distance_m ∧ sf.signal = sc.signal ∧
      (∀ r su, tf_lidar_read_uart hal s = .ok (r, su) →
        r = true ∧ sc.distance_m = su.distance_m ∧ sc.signal = su.signal ∧
        sf.distance_m = su.distance_m ∧ sf.signal = su.signal) ∧
      (m.uart_frame_length ≤ 32 →
        ∃ su, tf_lidar_read_uart hal s = .ok (true, su) ∧
          sc.distance_m = su.distance_m ∧ sc.signal = su.signal ∧
          sf.distance_m = su.distance_m ∧ sf.signal = su.signal) := by
  have hcr := read_can_of_ok hal s m hdr data wc _ _ hm hc hid
    (load_u16_of_index data _ b0 b1 c0 c1) (load_u16_of_index data _ b2 b3 c2 c3)
  have hfr := read_fdcan_of_ok hal s m fdhdr fddata wf _ _ hm hf
    (load_u16_of_index fddata _ b0 b1 f0 f1) (load_u16_of_index fddata _ b2 b3 f2 f3)
  have hur := fun hlen => read_uart_of_ok hal s m frame wu _ _ hm hlen hu
    (load_u16_of_index frame _ b0 b1 u0 u1) (load_u16_of_index frame _ b2 b3 u2 u3)
  refine ⟨_, _, hcr, hfr, rfl, rfl, rfl, rfl, ?_, ?_⟩
  · intro r su hr
    by_cases hlong : 32 < m.uart_frame_length
    · rw [read_uart_of_long hal s m hm hlong] at hr
      cases hr
    · rw [hur (by omega)] at hr
      cases hr
      exact ⟨rfl, rfl, rfl, rfl, rfl⟩
  · intro hlen
    exact ⟨_, hur hlen, rfl, rfl, rfl, rfl⟩

/-- C8 on the example payload, received over the three transports, the
classic CAN frame under identifier 3 (`can_id_rx`), with a UART frame of 9
bytes: each codec returns true and the three stored pairs are equal. -/
theorem C8_codecs_agree_witness :
    ∃ su sc sf,
      tf_lidar_read_uart (cannedHal (exCanned 3)) (exMachine TF_TRANSPORT_UART)
        = .ok (true, su) ∧
      tf_lidar_read_can (cannedHal (exCanned 3)) (exMachine TF_TRANSPORT_UART)
        = .ok (true, sc) ∧
      tf_lidar_read_fdcan (cannedHal (exCanned 3)) (exMachine TF_TRANSPORT_UART)
        = .ok (true, sf) ∧
      sc.distance_m = su.distance_m ∧ sc.signal = su.signal ∧
      sf.distance_m = su.distance_m ∧ sf.signal = su.signal := by
  obtain ⟨sc, sf, hc, hf, _, _, _, _, _, hu⟩ :=
    C8_codecs_agree (cannedHal (exCanned 3)) (exMachine TF_TRANSPORT_UART) exModel
      (Buffer.fill 32 exPayload) (Buffer.fill 8 exPayload) (Buffer.fill 64 exPayload)
      ⟨3⟩ ⟨3⟩ () () () 0x03 0xE8 0x00 0x64 rfl rfl rfl rfl rfl
      rfl rfl rfl rfl rfl rfl rfl rfl rfl rfl rfl rfl
  obtain ⟨su, hu1, h1, h2, h3, h4⟩ := hu (by decide)
  exact ⟨su, sc, sf, hu1, hc, hf, h1, h2, h3, h4⟩

/-! ## The acceptance filters -/

theorem shl5_and_mask (x : Nat) (hx : x < 2048) : (x <<< 5) &&& 0xFFE0 = x <<< 5 := by
  apply Nat.eq_of_testBit_eq
  intro j
  rw [Nat.testBit_and, show (0xFFE0 : Nat) = (2 ^ 11 - 1) <<< 5 from by decide]
  simp only [Nat.testBit_shiftLeft, Nat.testBit_two_pow_sub_one]
  by_cases hj : 5 ≤ j
  · by_cases hk : j - 5 < 11
    · simp [hj, hk]
    · have hlt : x < 2 ^ (j - 5) :=
        lt_of_lt_of_le hx (by
          calc 2048 = 2 ^ 11 := by norm_num
            _ ≤ 2 ^ (j - 5) := Nat.pow_le_pow_right (by norm_num) (by omega))
      have : x.testBit (j - 5) = false := Nat.testBit_lt_two_pow hlt
      simp [this]
  · simp [hj]

theorem can_filt_id_high {F : Type} (m : tf_lidar_model_t F) (htx : m.can_id_tx < 2048) :
    (tf_lidar_init_can_filt m).FilterIdHigh = m.can_id_tx <<< 5 := by
  have h1 : m.can_id_tx <<< 5 = m.can_id_tx * 32 := by rw [Nat.shiftLeft_eq]
  show ((m.can_id_tx <<< 5) % 2 ^ 32) &&& (2 ^ 16 - 1) = m.can_id_tx <<< 5
  rw [Nat.and_pow_two_sub_one_eq_mod, h1]
  omega

theorem can_filter_accepts_iff {F : Type} (m : tf_lidar_model_t F) (sid : Nat)
    (htx : m.can_id_tx < 2048) (hs : sid < 2048) :
    can_filter_accepts (tf_lidar_init_can_filt m) sid = true ↔ sid = m.can_id_tx := by
  unfold can_filter_accepts
  rw [can_filt_id_high m htx]
  show decide ((sid <<< 5) &&& 0xFFE0 = (m.can_id_tx <<< 5) &&& 0xFFE0) = true ↔ _
  rw [shl5_and_mask sid hs, shl5_and_mask m.can_id_tx htx, decide_eq_true_iff,
    Nat.shiftLeft_eq, Nat.shiftLeft_eq]
  constructor
  · intro h
    have : (2 : Nat) ^ 5 = 32 := by norm_num
    omega
  · intro h
    rw [h]

theorem fdcan_filter_accepts_iff {F : Type} (m : tf_lidar_model_t F) (sid : Nat)
    (htx : m.can_id_tx < 2048) (hs : sid < 2048) :
    fdcan_filter_accepts (tf_lidar_init_fdcan_filter m) sid = true ↔ sid = m.can_id_tx := by
  unfold fdcan_filter_accepts
  show decide (sid &&& (2 ^ 11 - 1) = m.can_id_tx &&& (2 ^ 11 - 1)) = true ↔ _
  rw [Nat.and_pow_two_sub_one_eq_mod, Nat.and_pow_two_sub_one_eq_mod, decide_eq_true_iff]
  have : (2 : Nat) ^ 11 = 2048 := by norm_num
  omega

theorem init_can_installs_filt {σ F : Type} (hal : Hal σ) (s : Machine σ F)
    (m : tf_lidar_model_t F) (c : Option Nat) (h : (hal.HAL_CAN_Init s.hw c).1 = .HAL_OK) :
    ∃ r st, tf_lidar_init_can hal s (some m) c = .ok (r, st) ∧
      HalCall.HAL_CAN_ConfigFilter c (tf_lidar_init_can_filt m) ∈ st.calls := by
  by_cases h2 : (hal.HAL_CAN_ConfigFilter (hal.HAL_CAN_Init s.hw c).2 c
      (tf_lidar_init_can_filt m)).1 = .HAL_OK
  · refine ⟨true, _, by simp [tf_lidar_init_can, Machine.log, h, h2]; rfl, ?_⟩
    simp
  · refine ⟨false, _, by simp [tf_lidar_init_can, Machine.log, h, h2]; rfl, ?_⟩
    simp

theorem init_fdcan_installs_filter {σ F : Type} (hal : Hal σ) (s : Machine σ F)
    (m : tf_lidar_model_t F) (c : Option Nat) (h : (hal.HAL_FDCAN_Init s.hw c).1 = .HAL_OK) :
    ∃ r st, tf_lidar_init_fdcan hal s (some m) c = .ok (r, st) ∧
      HalCall.HAL_FDCAN_ConfigFilter c (tf_lidar_init_fdcan_filter m) ∈ st.calls := by
  by_cases h2 : (hal.HAL_FDCAN_ConfigFilter (hal.HAL_FDCAN_Init s.hw c).2 c
      (tf_lidar_init_fdcan_filter m)).1 = .HAL_OK
  · refine ⟨true, _, by simp [tf_lidar_init_fdcan, Machine.log, h, h2]; rfl, ?_⟩
    simp
  · refine ⟨false, _, by simp [tf_lidar_init_fdcan, Machine.log, h, h2]; rfl, ?_⟩
    simp

theorem read_can_true_id {σ F : Type} [NatCast F] [Mul F] (hal : Hal σ) (s : Machine σ F)
    (m : tf_lidar_model_t F) (st : Machine σ F) (hm : s.lidar.model = some m)
    (hrd : tf_lidar_read_can hal s = .ok (true, st)) :
    (hal.HAL_CAN_GetRxMessage s.hw s.lidar.iface .CAN_RX_FIFO0).2.1.StdId = m.can_id_rx := by
  by_contra hid
  by_cases hok : (hal.HAL_CAN_GetRxMessage s.hw s.lidar.iface .CAN_RX_FIFO0).1 = .HAL_OK
  · have h := read_can_of_mismatch hal s m _ _ _ hm (Prod.ext hok rfl) hid
    rw [h] at hrd
    cases hrd
  · have h : tf_lidar_read_can hal s = .ok (false,
        s.log (.HAL_CAN_GetRxMessage s.lidar.iface .CAN_RX_FIFO0)
          (hal.HAL_CAN_GetRxMessage s.hw s.lidar.iface .CAN_RX_FIFO0).2.2.2) := by
      simp [tf_lidar_read_can, hok]
    rw [h] at hrd
    cases hrd

/-- C9: for an 11-bit `can_id_tx` and an 11-bit standard identifier `sid`, when
the peripheral configuration succeeds: `tf_lidar_init_can` installs a filter
with id-high `(can_id_tx << 5) & 0xFFFF` and mask-high `0xFFE0`, which accepts
`sid` exactly when `sid = can_id_tx`; `tf_lidar_init_fdcan` installs a filter
with ID1 `can_id_tx` and ID2 `0x7FF`, which accepts `sid` exactly when
`sid = can_id_tx`; and if a classic CAN frame with identifier `sid` passes the
filter and `tf_lidar_read_can` returns true on it, then
`can_id_tx = can_id_rx`. -/
theorem C9_filters_select_tx {σ F : Type} [NatCast F] [Mul F] (hal : Hal σ)
    (s : Machine σ F) (m : tf_lidar_model_t F) (c : Option Nat) (sid : Nat)
    (htx : m.can_id_tx < 2048) (hs : sid < 2048)
    (hci : (hal.HAL_CAN_Init s.hw c).1 = .HAL_OK)
    (hfi : (hal.HAL_FDCAN_Init s.hw c).1 = .HAL_OK) :
    (∃ r st filt, tf_lidar_init_can hal s (some m) c = .ok (r, st) ∧
      HalCall.HAL_CAN_ConfigFilter c filt ∈ st.calls ∧
      filt.FilterIdHigh = (m.can_id_tx <<< 5) &&& 0xFFFF ∧ filt.FilterMaskIdHigh = 0xFFE0 ∧
      (can_filter_accepts filt sid = true ↔ sid = m.can_id_tx)) ∧
    (∃ r st filter, tf_lidar_init_fdcan hal s (some m) c = .ok (r, st) ∧
      HalCall.HAL_FDCAN_ConfigFilter c filter ∈ st.calls ∧
      filter.FilterID1 = m.can_id_tx ∧ filter.FilterID2 = 0x7FF ∧
      (fdcan_filter_accepts filter sid = true ↔ sid = m.can_id_tx)) ∧
    (∀ t st : Machine σ F, t.lidar.model = some m →
      (hal.HAL_CAN_GetRxMessage t.hw t.lidar.iface .CAN_RX_FIFO0).2.1.StdId = sid →
      can_filter_accepts (tf_lidar_init_can_filt m) sid = true →
      tf_lidar_read_can hal t = .ok (true, st) → m.can_id_tx = m.can_id_rx) := by
  refine ⟨?_, ?_, ?_⟩
  · obtain ⟨r, st, h, hin⟩ := init_can_installs_filt hal s m c hci
    refine ⟨r, st, _, h, hin, ?_, rfl, can_filter_accepts_iff m sid htx hs⟩
    rw [can_filt_id_high m htx]
    show m.can_id_tx <<< 5 = (m.can_id_tx <<< 5) &&& (2 ^ 16 - 1)
    rw [Nat.and_pow_two_sub_one_eq_mod, Nat.shiftLeft_eq]
    omega
  · obtain ⟨r, st, h, hin⟩ := init_fdcan_installs_filter hal s m c hfi
    exact ⟨r, st, _, h, hin, rfl, rfl, fdcan_filter_accepts_iff m sid htx hs⟩
  · intro t st hm hsid hacc hrd
    have h1 : sid = m.can_id_tx := (can_filter_accepts_iff m sid htx hs).mp hacc
    have h2 := read_can_true_id hal t m st hm hrd
    rw [← h1, ← hsid, h2]

/-- C9 on the example model, whose `can_id_tx` and `can_id_rx` are both 3: a
frame under identifier 3 passes the installed filter and the software check;
identifier 5 is rejected by both filters. -/
theorem C9_filters_select_tx_witness :
    can_filter_accepts (tf_lidar_init_can_filt exModel) 3 = true ∧
    can_filter_accepts (tf_lidar_init_can_filt exModel) 5 = false ∧
    fdcan_filter_accepts (tf_lidar_init_fdcan_filter exModel) 5 = false ∧
    (∃ st, tf_lidar_read_can (cannedHal (exCanned 3)) (exMachine TF_TRANSPORT_CAN)
      = .ok (true, st)) ∧
    exModel.can_id_tx = exModel.can_id_rx :=
  ⟨by decide, by decide, by decide, ⟨_, rfl⟩,
   (C9_filters_select_tx (cannedHal (exCanned 3)) zeroMachine exModel (some 1) 3
      (by decide) (by decide) rfl rfl).2.2
     (exMachine TF_TRANSPORT_CAN) _ rfl rfl (by decide) rfl⟩

/-! ## Array bounds -/

theorem loads_of_within {F : Type} {n : Nat} (a : Buffer n) (m : tf_lidar_model_t F)
    (h : offsets_within m n) :
    ∃ rd rs, load_u16 a m.offset_distance = .ok rd ∧ load_u16 a m.offset_signal = .ok rs := by
  obtain ⟨_, _, _, _, h1⟩ := load_u16_of_lt a m.offset_distance h.1
  obtain ⟨_, _, _, _, h2⟩ := load_u16_of_lt a m.offset_signal h.2
  exact ⟨_, _, h1, h2⟩

theorem loads_of_not_within {F : Type} {n : Nat} (a : Buffer n) (m : tf_lidar_model_t F)
    (h : ¬ offsets_within m n) :
    load_u16 a m.offset_distance = .error .out_of_bounds ∨
    ∃ rd, load_u16 a m.offset_distance = .ok rd ∧
      load_u16 a m.offset_signal = .error .out_of_bounds := by
  by_cases hd : m.offset_distance + 1 < n
  · have hs : n ≤ m.offset_signal + 1 := by
      by_contra hc
      exact h ⟨hd, by omega⟩
    obtain ⟨_, _, _, _, h1⟩ := load_u16_of_lt a m.offset_distance hd
    exact Or.inr ⟨_, h1, load_u16_of_ge a _ hs⟩
  · exact Or.inl (load_u16_of_ge a _ (by omega))

theorem index_of_within {F : Type} {n : Nat} (a : Buffer n) (m : tf_lidar_model_t F)
    (h : offsets_within m n) :
    (a.index m.offset_distance).isSome ∧ (a.index (m.offset_distance + 1)).isSome ∧
    (a.index m.offset_signal).isSome ∧ (a.index (m.offset_signal + 1)).isSome := by
  obtain ⟨h1, h2⟩ := h
  exact ⟨(index_isSome_iff a _).mpr (by omega), (index_isSome_iff a _).mpr h1,
    (index_isSome_iff a _).mpr (by omega), (index_isSome_iff a _).mpr h2⟩

theorem read_uart_returns {σ F : Type} [NatCast F] [Mul F] (hal : Hal σ) (s : Machine σ F)
    (m : tf_lidar_model_t F) (hm : s.lidar.model = some m) (h : offsets_within m 32)
    (hlen : m.uart_frame_length ≤ 32) :
    ∃ r st, tf_lidar_read_uart hal s = .ok (r, st) := by
  have hlong : ¬ 32 < m.uart_frame_length := by omega
  rcases read_uart_step hal s m hm with he | ⟨r, st, hr, _, _⟩
  · exfalso
    obtain ⟨rd, rs, h1, h2⟩ := loads_of_within (hal.HAL_UART_Receive s.hw s.lidar.iface
      m.uart_frame_length UART_TIMEOUT_MS).2.1 m h
    by_cases hok : (hal.HAL_UART_Receive s.hw s.lidar.iface m.uart_frame_length
        UART_TIMEOUT_MS).1 = .HAL_OK
    · rw [read_uart_of_ok hal s m _ _ rd rs hm hlen (Prod.ext hok rfl) h1 h2] at he
      cases he
    · simp [tf_lidar_read_uart, tf_uart_read_frame, hm, hlong, hok] at he
  · exact ⟨r, st, hr⟩

theorem read_uart_faults {σ F : Type} [NatCast F] [Mul F] (hal : Hal σ) (s : Machine σ F)
    (m : tf_lidar_model_t F) (hm : s.lidar.model = some m) (h : ¬ offsets_within m 32)
    (hok : (hal.HAL_UART_Receive s.hw s.lidar.iface m.uart_frame_length
        UART_TIMEOUT_MS).1 = .HAL_OK) :
    tf_lidar_read_uart hal s = .error .out_of_bounds := by
  by_cases hlong : 32 < m.uart_frame_length
  · exact read_uart_of_long hal s m hm hlong
  rcases loads_of_not_within (hal.HAL_UART_Receive s.hw s.lidar.iface
      m.uart_frame_length UART_TIMEOUT_MS).2.1 m h with h1 | ⟨rd, h1, h2⟩
  · simp [tf_lidar_read_uart, tf_uart_read_frame, hm, hlong, hok, Machine.log, h1]
  · simp [tf_lidar_read_uart, tf_uart_read_frame, hm, hlong, hok, Machine.log, h1, h2]

theorem read_can_returns {σ F : Type} [NatCast F] [Mul F] (hal : Hal σ) (s : Machine σ F)
    (m : tf_lidar_model_t F) (hm : s.lidar.model = some m) (h : offsets_within m 8) :
    ∃ r st, tf_lidar_read_can hal s = .ok (r, st) := by
  rcases read_can_step hal s m hm with he | ⟨r, st, hr, _, _⟩
  · exfalso
    obtain ⟨rd, rs, h1, h2⟩ := loads_of_within
      (hal.HAL_CAN_GetRxMessage s.hw s.lidar.iface .CAN_RX_FIFO0).2.2.1 m h
    by_cases hok : (hal.HAL_CAN_GetRxMessage s.hw s.lidar.iface .CAN_RX_FIFO0).1 = .HAL_OK
    · by_cases hid : (hal.HAL_CAN_GetRxMessage s.hw s.lidar.iface .CAN_RX_FIFO0).2.1.StdId
          = m.can_id_rx
      · rw [read_can_of_ok hal s m _ _ _ rd rs hm (Prod.ext hok rfl) hid h1 h2] at he
        cases he
      · rw [read_can_of_mismatch hal s m _ _ _ hm (Prod.ext hok rfl) hid] at he
        cases he
    · simp [tf_lidar_read_can, hok] at he
  · exact ⟨r, st, hr⟩

theorem read_can_faults {σ F : Type} [NatCast F] [Mul F] (hal : Hal σ) (s : Machine σ F)
    (m : tf_lidar_model_t F) (hm : s.lidar.model = some m) (h : ¬ offsets_within m 8)
    (hok : (hal.HAL_CAN_GetRxMessage s.hw s.lidar.iface .CAN_RX_FIFO0).1 = .HAL_OK)
    (hid : (hal.HAL_CAN_GetRxMessage s.hw s.lidar.iface .CAN_RX_FIFO0).2.1.StdId
      = m.can_id_rx) :
    tf_lidar_read_can hal s = .error .out_of_bounds := by
  rcases loads_of_not_within
      (hal.HAL_CAN_GetRxMessage s.hw s.lidar.iface .CAN_RX_FIFO0).2.2.1 m h
    with h1 | ⟨rd, h1, h2⟩
  · simp [tf_lidar_read_can, hm, hok, hid, Machine.log, h1]
  · simp [tf_lidar_read_can, hm, hok, hid, Machine.log, h1, h2]

theorem read_fdcan_returns {σ F : Type} [NatCast F] [Mul F] (hal : Hal σ) (s : Machine σ F)
    (m : tf_lidar_model_t F) (hm : s.lidar.model = some m) (h : offsets_within m 64) :
    ∃ r st, tf_lidar_read_fdcan hal s = .ok (r, st) := by
  rcases read_fdcan_step hal s m hm with he | ⟨r, st, hr, _, _⟩
  · exfalso
    obtain ⟨rd, rs, h1, h2⟩ := loads_of_within
      (hal.HAL_FDCAN_GetRxMessage s.hw s.lidar.iface .FDCAN_RX_FIFO0).2.2.1 m h
    by_cases hok : (hal.HAL_FDCAN_GetRxMessage s.hw s.lidar.iface .FDCAN_RX_FIFO0).1
        = .HAL_OK
    · rw [read_fdcan_of_ok hal s m _ _ _ rd rs hm (Prod.ext hok rfl) h1 h2] at he
      cases he
    · simp [tf_lidar_read_fdcan, hok] at he
  · exact ⟨r, st, hr⟩

theorem read_fdcan_faults {σ F : Type} [NatCast F] [Mul F] (hal : Hal σ) (s : Machine σ F)
    (m : tf_lidar_model_t F) (hm : s.lidar.model = some m) (h : ¬ offsets_within m 64)
    (hok : (hal.HAL_FDCAN_GetRxMessage s.hw s.lidar.iface .FDCAN_RX_FIFO0).1 = .HAL_OK) :
    tf_lidar_read_fdcan hal s = .error .out_of_bounds := by
  rcases loads_of_not_within
      (hal.HAL_FDCAN_GetRxMessage s.hw s.lidar.iface .FDCAN_RX_FIFO0).2.2.1 m h
    with h1 | ⟨rd, h1, h2⟩
  · simp [tf_lidar_read_fdcan, hm, hok, Machine.log, h1]
  · simp [tf_lidar_read_fdcan, hm, hok, Machine.log, h1, h2]

end TFLidar
